import Mathlib

/-!
Verification of the ai-poll-generator repository against its specification.

The development shallowly embeds the two generator modules:
  * `src/utils/question_generator.py` (`generate_poll_question`), and
  * `src/utils/quiz_generator.py` (`generate_reflection_quiz`, `validate_quiz_data`).

JSON values are modelled by the inductive `Json` (Python dicts keep insertion
order, hence association lists).  `json.loads` is modelled by `jsonParse`, a
recursive-descent parser faithful to Python's strict JSON grammar on the
integer-numeric fragment (floats are not needed by any claim and are rejected
by the model).  The completion API, its transport failures and the random
sources are explicit inputs; sleeps are recorded rather than performed.
-/

/-- A JSON value as produced by Python's `json.loads`.  Objects are ordered
association lists, matching Python's insertion-ordered `dict`. -/
inductive Json where
  | null : Json
  | bool (b : Bool) : Json
  | num (n : Int) : Json
  | str (s : String) : Json
  | arr (xs : List Json) : Json
  | obj (kvs : List (String × Json)) : Json

/-- Python `d.get(k)`: the value stored at `k`, or `None` when absent. -/
def dictGet (d : List (String × Json)) (k : String) : Json :=
  match d.find? (fun kv => kv.1 == k) with
  | some kv => kv.2
  | none => Json.null

/-- Python `d.get(k, dflt)`. -/
def dictGetD (d : List (String × Json)) (k : String) (dflt : Json) : Json :=
  match d.find? (fun kv => kv.1 == k) with
  | some kv => kv.2
  | none => dflt

/-- Whether a value is a Python mapping (`dict`). -/
def Json.isObj : Json → Bool
  | Json.obj _ => true
  | _ => false

/-- Python truth-value test `not x` (falsy values of the JSON universe:
`None`, `False`, `0`, `""`, `[]`, `\x7b\x7d`). -/
def jsonFalsy : Json → Bool
  | Json.null => true
  | Json.bool b => !b
  | Json.num n => n == 0
  | Json.str s => s == ""
  | Json.arr xs => xs.isEmpty
  | Json.obj kvs => kvs.isEmpty

/-- Insert/replace a key in an ordered object, mirroring Python `dict`
construction: a duplicate key keeps its first position and takes the last
value. -/
def objSet : List (String × Json) → String → Json → List (String × Json)
  | [], k, v => [(k, v)]
  | (k1, v1) :: rest, k, v =>
    if k1 = k then (k1, v) :: rest else (k1, v1) :: objSet rest k v

/-- JSON whitespace, as skipped by Python's `json.loads`. -/
def skipWs (cs : List Char) : List Char :=
  cs.dropWhile (fun c => c == ' ' || c == '\t' || c == '\n' || c == '\r')

/-- Value of one hexadecimal digit. -/
def hexVal (c : Char) : Option Nat :=
  if '0' ≤ c ∧ c ≤ '9' then some (c.toNat - 48)
  else if 'a' ≤ c ∧ c ≤ 'f' then some (c.toNat - 87)
  else if 'A' ≤ c ∧ c ≤ 'F' then some (c.toNat - 55)
  else none

/-- Body of a JSON string literal (after the opening quote), with the escape
sequences accepted by `json.loads`; raw control characters are rejected as in
Python's strict mode. -/
def parseStringChars (acc : List Char) : List Char → Option (String × List Char)
  | [] => none
  | '"' :: rest => some (String.mk acc.reverse, rest)
  | '\\' :: 'u' :: h1 :: h2 :: h3 :: h4 :: rest =>
    (match hexVal h1, hexVal h2, hexVal h3, hexVal h4 with
     | some a, some b, some c, some d =>
       parseStringChars (Char.ofNat (((a * 16 + b) * 16 + c) * 16 + d) :: acc) rest
     | _, _, _, _ => none)
  | '\\' :: e :: rest =>
    if e = '"' ∨ e = '\\' ∨ e = '/' then parseStringChars (e :: acc) rest
    else if e = 'n' then parseStringChars ('\n' :: acc) rest
    else if e = 't' then parseStringChars ('\t' :: acc) rest
    else if e = 'r' then parseStringChars ('\r' :: acc) rest
    else if e = 'b' then parseStringChars ('\x08' :: acc) rest
    else if e = 'f' then parseStringChars ('\x0c' :: acc) rest
    else none
  | c :: rest => if c.toNat < 32 then none else parseStringChars (c :: acc) rest

/-- Decimal value of a digit string. -/
def digitsToNat (ds : List Char) : Nat :=
  ds.foldl (fun n c => n * 10 + (c.toNat - 48)) 0

/-- JSON number literal, restricted to the integer fragment (`json.loads`
also accepts floats; no claim involves one, and the model rejects them so
that no float is ever silently mis-parsed).  Leading zeros are rejected as in
the JSON grammar. -/
def parseNumber (cs : List Char) : Option (Json × List Char) :=
  let p := match cs with
    | '-' :: rest => (true, rest)
    | _ => (false, cs)
  let ds := p.2.takeWhile (fun c => c.isDigit)
  let rest := p.2.dropWhile (fun c => c.isDigit)
  if ds.isEmpty then none
  else if ds.length > 1 ∧ ds.headD '0' = '0' then none
  else
    let n : Int := Int.ofNat (digitsToNat ds)
    let v := Json.num (if p.1 then -n else n)
    match rest with
    | c :: _ => if c = '.' ∨ c = 'e' ∨ c = 'E' then none else some (v, rest)
    | [] => some (v, rest)

mutual

/-- One JSON value (fuelled recursive descent). -/
def parseVal (fuel : Nat) (cs : List Char) : Option (Json × List Char) :=
  match fuel with
  | 0 => none
  | f + 1 =>
    match skipWs cs with
    | [] => none
    | '\x7b' :: rest => parseObjFirst f rest
    | '[' :: rest => parseArrFirst f rest
    | '"' :: rest =>
      (match parseStringChars [] rest with
       | some (s, rest2) => some (Json.str s, rest2)
       | none => none)
    | 't' :: 'r' :: 'u' :: 'e' :: rest => some (Json.bool true, rest)
    | 'f' :: 'a' :: 'l' :: 's' :: 'e' :: rest => some (Json.bool false, rest)
    | 'n' :: 'u' :: 'l' :: 'l' :: rest => some (Json.null, rest)
    | other => parseNumber other

/-- Array body directly after `[`. -/
def parseArrFirst (fuel : Nat) (cs : List Char) : Option (Json × List Char) :=
  match fuel with
  | 0 => none
  | f + 1 =>
    match skipWs cs with
    | ']' :: rest => some (Json.arr [], rest)
    | other =>
      match parseVal f other with
      | some (v, rest2) => parseArrRest f rest2 [v]
      | none => none

/-- Array body after at least one element. -/
def parseArrRest (fuel : Nat) (cs : List Char) (acc : List Json) :
    Option (Json × List Char) :=
  match fuel with
  | 0 => none
  | f + 1 =>
    match skipWs cs with
    | ']' :: rest => some (Json.arr acc.reverse, rest)
    | ',' :: rest =>
      (match parseVal f rest with
       | some (v, rest2) => parseArrRest f rest2 (v :: acc)
       | none => none)
    | _ => none

/-- Object body directly after `\x7b`. -/
def parseObjFirst (fuel : Nat) (cs : List Char) : Option (Json × List Char) :=
  match fuel with
  | 0 => none
  | f + 1 =>
    match skipWs cs with
    | '\x7d' :: rest => some (Json.obj [], rest)
    | '"' :: rest =>
      (match parseStringChars [] rest with
       | some (k, rest2) =>
         (match skipWs rest2 with
          | ':' :: rest3 =>
            (match parseVal f rest3 with
             | some (v, rest4) => parseObjRest f rest4 (objSet [] k v)
             | none => none)
          | _ => none)
       | none => none)
    | _ => none

/-- Object body after at least one member. -/
def parseObjRest (fuel : Nat) (cs : List Char) (acc : List (String × Json)) :
    Option (Json × List Char) :=
  match fuel with
  | 0 => none
  | f + 1 =>
    match skipWs cs with
    | '\x7d' :: rest => some (Json.obj acc, rest)
    | ',' :: rest =>
      (match skipWs rest with
       | '"' :: rest2 =>
         (match parseStringChars [] rest2 with
          | some (k, rest3) =>
            (match skipWs rest3 with
             | ':' :: rest4 =>
               (match parseVal f rest4 with
                | some (v, rest5) => parseObjRest f rest5 (objSet acc k v)
                | none => none)
             | _ => none)
          | none => none)
       | _ => none)
    | _ => none

end

/-- Model of Python `json.loads` (integer-numeric fragment): parse one JSON
value and require that only whitespace remains, as `json.loads` raises on
trailing data. -/
def jsonParse (s : String) : Option Json :=
  match parseVal (3 * s.length + 16) s.data with
  | some (v, rest) => if (skipWs rest).isEmpty then some v else none
  | none => none

/-- Index of the last occurrence of `c`. -/
def lastIdxOf (c : Char) (cs : List Char) : Option Nat :=
  match cs.reverse.findIdx? (fun x => x == c) with
  | some k => some (cs.length - 1 - k)
  | none => none

/-- Model of `re.search(r'\[.*\]', content, re.S)` from
`question_generator.py` line 83: the leftmost-starting, greedy match runs
from the first `[` to the last `]` of the text (provided the `]` comes
later); `.` with `re.S` also matches newlines, so no line structure matters.
Returns `match.group()`. -/
def reSearchBracket (s : String) : Option String :=
  let cs := s.data
  match cs.findIdx? (fun c => c == '['), lastIdxOf ']' cs with
  | some i, some j =>
    if i < j then some (String.mk ((cs.drop i).take (j - i + 1))) else none
  | _, _ => none

/-- Error taxonomy of the Response Extractor.  The spec (§7) additionally
names `EmptyResponse`; the code of `generate_poll_question` only ever raises
the generic `ValueError` for a failed bracket search (`noJsonFound`) or a
`json.JSONDecodeError` (`jsonDecodeError`). -/
inductive ExtractErr where
  | emptyResponse : ExtractErr
  | noJsonFound : ExtractErr
  | jsonDecodeError : ExtractErr
deriving DecidableEq

/-- Whitespace stripped by Python `str.strip()` (ASCII part). -/
def pyWs (c : Char) : Bool :=
  c == ' ' || c == '\t' || c == '\n' || c == '\r' || c == '\x0b' || c == '\x0c'

/-- Python `s.strip()`. -/
def pyStrip (s : String) : String :=
  String.mk (((s.data.dropWhile pyWs).reverse.dropWhile pyWs).reverse)

/-- Lines 81–87 of `question_generator.py`: strip the response text, search
for the bracketed-array pattern, and `json.loads` the match.  Both failure
modes are raised as exceptions there and caught by the surrounding
`except`, which makes `generate_poll_question` return `[]`. -/
def pollExtract (raw : String) : Except ExtractErr Json :=
  let content := pyStrip raw
  match reSearchBracket content with
  | none => Except.error ExtractErr.noJsonFound
  | some m =>
    match jsonParse m with
    | none => Except.error ExtractErr.jsonDecodeError
    | some v => Except.ok v

example : jsonParse "[\x7b\"a\":1\x7d]" = some (Json.arr [Json.obj [("a", Json.num 1)]]) := rfl

example : reSearchBracket "Sure! [\x7b\"a\":1\x7d] Hope that helps" = some "[\x7b\"a\":1\x7d]" := rfl

example : pollExtract "Sure! [\x7b\"a\":1\x7d] Hope that helps" =
    Except.ok (Json.arr [Json.obj [("a", Json.num 1)]]) := rfl

example : jsonParse "\x7b\"a\": [1], \"result\": [\x7b\"a\":1\x7d]\x7d" =
    some (Json.obj [("a", Json.arr [Json.num 1]),
      ("result", Json.arr [Json.obj [("a", Json.num 1)]])]) := rfl

example : reSearchBracket "\x7b\"a\": [1], \"result\": [\x7b\"a\":1\x7d]\x7d" =
    some "[1], \"result\": [\x7b\"a\":1\x7d]" := rfl

example : pollExtract "\x7b\"a\": [1], \"result\": [\x7b\"a\":1\x7d]\x7d" =
    Except.error ExtractErr.jsonDecodeError := rfl

example : pollExtract "\x7b\"result\": [\x7b\"a\":1\x7d,\x7b\"a\":2\x7d]\x7d" =
    Except.ok (Json.arr [Json.obj [("a", Json.num 1)], Json.obj [("a", Json.num 2)]]) := rfl

example : pollExtract "" = Except.error ExtractErr.noJsonFound := rfl

example : pollExtract "   " = Except.error ExtractErr.noJsonFound := rfl

/-- One question check from `validate_quiz_data` (lines 88–97 of
`quiz_generator.py`): the `type` tag must be `multiple_choice` or
`short_answer`, and a multiple-choice question needs a list of 3–5 options.
`none` models the `AttributeError` Python raises when `q` is not a mapping
(`q.get` on a non-dict), which escapes the validator. -/
def checkQuestion (q : Json) : Option Bool :=
  match q with
  | Json.obj qd =>
    (match dictGet qd "type" with
     | Json.str s =>
       if s = "multiple_choice" then
         (match dictGet qd "options" with
          | Json.arr os => some (decide (3 ≤ os.length ∧ os.length ≤ 5))
          | _ => some false)
       else if s = "short_answer" then some true
       else some false
     | _ => some false)
  | _ => none

/-- The `for q in questions` loop of `validate_quiz_data`: sequential, so an
early `return False` pre-empts a later exception. -/
def checkQuestions : List Json → Option Bool
  | [] => some true
  | q :: qs =>
    match checkQuestion q with
    | none => none
    | some false => some false
    | some true => checkQuestions qs

/-- `validate_quiz_data` (lines 75–99 of `quiz_generator.py`): `title` must
be a non-empty `str`, `questions` a non-empty `list`, and every question must
pass `checkQuestion`.  `none` models an escaping `AttributeError`. -/
def validate_quiz_data (data : List (String × Json)) : Option Bool :=
  match dictGet data "title" with
  | Json.str t =>
    if t = "" then some false
    else
      match dictGet data "questions" with
      | Json.arr qs => if qs.isEmpty then some false else checkQuestions qs
      | _ => some false
  | _ => some false

/-- Outcome of one `fetch` of the completion API: either the call (or
`response.json()`) raises, or it yields a response with an HTTP status flag
and a parsed JSON body. -/
inductive FetchOutcome where
  | raise : FetchOutcome
  | resp (ok : Bool) (body : Json) : FetchOutcome

/-- Reasons a single generation attempt fails (all are caught by the
`except (Exception, ValueError)` of the retry loop and classified alike). -/
inductive AttemptErr where
  | transport : AttemptErr
  | badStatus : AttemptErr
  | navFail : AttemptErr
  | noText : AttemptErr
  | loadsFail : AttemptErr
  | loadsTypeErr : AttemptErr
  | invalid : AttemptErr
  | validateExn : AttemptErr
deriving DecidableEq

/-- Line 139 of `quiz_generator.py`:
`result.get('candidates', [\x7b\x7d])[0].get('content', \x7b\x7d).get('parts', [\x7b\x7d])[0].get('text')`.
`Except.error` models any `AttributeError`/`IndexError`/`TypeError` raised
along the chain (subscripting a non-list, `.get` on a non-dict, an empty
list). -/
def navText (body : Json) : Except Unit Json :=
  match body with
  | Json.obj d =>
    (match dictGetD d "candidates" (Json.arr [Json.obj []]) with
     | Json.arr [] => Except.error ()
     | Json.arr (x :: _) =>
       (match x with
        | Json.obj xd =>
          (match dictGetD xd "content" (Json.obj []) with
           | Json.obj cd =>
             (match dictGetD cd "parts" (Json.arr [Json.obj []]) with
              | Json.arr [] => Except.error ()
              | Json.arr (p :: _) =>
                (match p with
                 | Json.obj pd => Except.ok (dictGet pd "text")
                 | _ => Except.error ())
              | _ => Except.error ())
           | _ => Except.error ())
        | _ => Except.error ())
     | _ => Except.error ())
  | _ => Except.error ()

/-- The body of one attempt of `generate_reflection_quiz` (lines 124–153):
fetch, check `response.ok`, navigate to the generated text, require it
non-falsy, `json.loads` it, and run `validate_quiz_data`; success returns the
parsed quiz data. -/
def attemptResult (o : FetchOutcome) : Except AttemptErr Json :=
  match o with
  | FetchOutcome.raise => Except.error AttemptErr.transport
  | FetchOutcome.resp ok body =>
    if !ok then Except.error AttemptErr.badStatus
    else
      match navText body with
      | Except.error _ => Except.error AttemptErr.navFail
      | Except.ok t =>
        if jsonFalsy t then Except.error AttemptErr.noText
        else
          match t with
          | Json.str s =>
            (match jsonParse s with
             | none => Except.error AttemptErr.loadsFail
             | some d =>
               match d with
               | Json.obj dd =>
                 (match validate_quiz_data dd with
                  | none => Except.error AttemptErr.validateExn
                  | some false => Except.error AttemptErr.invalid
                  | some true => Except.ok d)
               | _ => Except.error AttemptErr.validateExn)
          | _ => Except.error AttemptErr.loadsTypeErr

/-- Result of one run of `generate_reflection_quiz`: the returned dict, the
recorded backoff sleeps (in seconds, as exact rationals) and the number of
completion-API calls issued. -/
structure QuizRun where
  result : Json
  sleeps : List Rat
  apiCalls : Nat

/-- `initial_delay = 1` second (line 121 of `quiz_generator.py`). -/
def initial_delay : Rat := 1

/-- `max_retries = 3` (line 120 of `quiz_generator.py`). -/
def max_retries : Nat := 3

/-- The fallback structure returned after the final attempt fails
(lines 166–169 of `quiz_generator.py`). -/
def errorQuizJson (topic : String) : Json :=
  Json.obj [("title", Json.str ("Error Quiz: " ++ topic)),
    ("questions", Json.arr [Json.obj [("id", Json.num 1),
      ("type", Json.str "short_answer"),
      ("question_text", Json.str "Failed to generate content."),
      ("options", Json.arr []),
      ("correct_answer", Json.str "")]])]

/-- The `for attempt in range(max_retries)` loop of
`generate_reflection_quiz` (lines 123–169).  `remaining` is the number of
loop iterations left; a failed attempt with `attempt < max_retries - 1`
(equivalently `remaining > 1`) records a backoff sleep of
`initial_delay * 2 ^ attempt + jitter` and retries; the final failure
returns the fallback structure.  The `remaining = 0` base case is the
`return \x7b\x7d` after the loop (line 172), unreachable when the loop runs. -/
def quizGo (o : Nat → FetchOutcome) (j : Nat → Rat) (topic : String)
    (attempt : Nat) (remaining : Nat) (acc : List Rat) (calls : Nat) : QuizRun :=
  match remaining with
  | 0 => ⟨Json.obj [], acc.reverse, calls⟩
  | r + 1 =>
    match attemptResult (o attempt) with
    | Except.ok v => ⟨v, acc.reverse, calls + 1⟩
    | Except.error _ =>
      if 0 < r then
        quizGo o j topic (attempt + 1) r
          ((initial_delay * 2 ^ attempt + j attempt) :: acc) (calls + 1)
      else ⟨errorQuizJson topic, acc.reverse, calls + 1⟩

/-- `generate_reflection_quiz` (lines 101–172 of `quiz_generator.py`), with
the completion API modelled by the per-attempt outcome stream `o` and
`random.uniform(0, 1)` by the jitter stream `j`. -/
def generate_reflection_quiz (topic : String) (o : Nat → FetchOutcome)
    (j : Nat → Rat) : QuizRun :=
  quizGo o j topic 0 max_retries [] 0

/-- The fixed participant pool `SAMPLE_USERS` of `question_generator.py`. -/
def SAMPLE_USERS : List String :=
  ["김민준", "이서윤", "박도현", "정하윤", "최지우",
   "강서준", "문예준", "한지아", "오시후", "신수아",
   "장서연", "황지훈", "고은채", "유승민", "송나영"]

/-- One draw of `random.sample`'s selection-without-replacement process: the
random source picks an index into the remaining pool; the chosen element is
removed.  (On an empty pool the draw is never used by the code.) -/
def drawOne (pool : List String) (r : Nat) : String × List String :=
  if pool.isEmpty then ("", [])
  else (pool.getD (r % pool.length) "", pool.eraseIdx (r % pool.length))

/-- `random.sample(pool, 4)` (line 102 of `question_generator.py`): four
draws without replacement, the randomness supplied as four naturals. -/
def random_sample (pool : List String) (rs : Nat × Nat × Nat × Nat) :
    List String :=
  let d1 := drawOne pool rs.1
  let d2 := drawOne d1.2 rs.2.1
  let d3 := drawOne d2.2 rs.2.2.1
  let d4 := drawOne d3.2 rs.2.2.2
  [d1.1, d2.1, d3.1, d4.1]

/-- Exceptions `generate_poll_question` can raise to its caller. -/
inductive PollErr where
  | clientNotInit : PollErr
  | attrErr : PollErr
  | typeErr : PollErr
  | tooFewUsers : PollErr
deriving DecidableEq

/-- One element of the returned `polls` list (lines 104–108 of
`question_generator.py`).  `question_phrase` is whatever `item.get`
returned, hence a `Json`. -/
structure PollItem where
  question_phrase : Json
  choices : List String
  ideal_answer : String

/-- Result of one call of `generate_poll_question`: the returned value or
the escaped exception, plus the number of completion-API calls made. -/
structure PollRun where
  result : Except PollErr (List PollItem)
  apiCalls : Nat

/-- Python iteration over the parsed value (`for item in question_phrases`):
a list yields its elements, a dict its keys, a string its characters, and
anything else raises `TypeError`. -/
def pyIter (v : Json) : Except PollErr (List Json) :=
  match v with
  | Json.arr xs => Except.ok xs
  | Json.obj kvs => Except.ok (kvs.map (fun kv => Json.str kv.1))
  | Json.str s => Except.ok (s.data.map (fun c => Json.str (String.mk [c])))
  | _ => Except.error PollErr.typeErr

/-- The `for item in question_phrases` loop (lines 96–108 of
`question_generator.py`), outside the `try`: `item.get('poll_phrase', ...)`
raises `AttributeError` on a non-mapping item; then the pool-size guard
raises; then four names are sampled.  `k` indexes the per-item randomness. -/
def buildPolls (topic : String) (pool : List String)
    (rands : Nat → Nat × Nat × Nat × Nat) :
    List Json → Nat → Except PollErr (List PollItem)
  | [], _ => Except.ok []
  | item :: rest, k =>
    match item with
    | Json.obj d =>
      let phrase := dictGetD d "poll_phrase"
        (Json.str ("주제 [" ++ topic ++ "]에 대해 투표할 사람?"))
      if pool.length < 4 then Except.error PollErr.tooFewUsers
      else
        match buildPolls topic pool rands rest (k + 1) with
        | Except.error e => Except.error e
        | Except.ok ps =>
          Except.ok (⟨phrase, random_sample pool (rands k), "투표 결과에 따라 다름"⟩ :: ps)
    | _ => Except.error PollErr.attrErr

/-- `generate_poll_question` (lines 45–110 of `question_generator.py`).
`clientOk` is whether the module-level OpenAI client was initialized;
`api` is the outcome of the single `client.chat.completions.create` call
(`Except.error` = any exception from the call, including a missing/`None`
message content); `pool` is `SAMPLE_USERS` (parametrized so the spec's
too-small-pool configuration is expressible); `rands` feeds
`random.sample`.  Transport, search and parse failures are caught by the
`except` and yield `[]`; loop-phase exceptions escape to the caller. -/
def generate_poll_question (clientOk : Bool) (topic : String)
    (num_questions : Nat) (api : Except Unit String) (pool : List String)
    (rands : Nat → Nat × Nat × Nat × Nat) : PollRun :=
  if !clientOk then ⟨Except.error PollErr.clientNotInit, 0⟩
  else
    match api with
    | Except.error _ => ⟨Except.ok [], 1⟩
    | Except.ok raw =>
      match pollExtract raw with
      | Except.error _ => ⟨Except.ok [], 1⟩
      | Except.ok v =>
        match pyIter v with
        | Except.error e => ⟨Except.error e, 1⟩
        | Except.ok items => ⟨buildPolls topic pool rands items 0, 1⟩

example :
    (generate_poll_question true "t" 1 (Except.ok "[\x7b\"poll_phrase\": \"x?\"\x7d]")
      SAMPLE_USERS (fun _ => (0, 0, 0, 0))).result =
    Except.ok [⟨Json.str "x?", ["김민준", "이서윤", "박도현", "정하윤"], "투표 결과에 따라 다름"⟩] := rfl

example : (generate_poll_question true "t" 3 (Except.error ()) SAMPLE_USERS
    (fun _ => (0, 0, 0, 0))) = ⟨Except.ok [], 1⟩ := rfl

example : validate_quiz_data [("title", Json.str "T"),
    ("questions", Json.arr [Json.obj [("type", Json.str "short_answer")]])] = some true := rfl

example : validate_quiz_data [("title", Json.str ""), ("questions", Json.arr [])] = some false := rfl

/-- Modelled from the spec: the per-day memoization of the Reflection-Quiz
Generator.  `app.py` (line 276) calls
`generate_reflection_quiz(quiz_id=today_quiz_id, cache_version=2)` — a cached
variant keyed by the day identifier (per the comment, via `@st.cache_data`) —
but that variant is not under `src/`; `src/utils/quiz_generator.py` defines
only an uncached `generate_reflection_quiz(topic)`.  Following §4.4/§9 of the
spec (`get_or_compute(key, ttl, compute_fn)`): on a cache hit for the day-key
the stored batch is returned with no model call; on a miss the fresh batch is
computed (one model call) and stored.  Returns the batch, the updated cache
and the number of model calls made. -/
def cached_generate_reflection_quiz (cache : List (String × Json))
    (dayKey : String) (fresh : Json) : Json × List (String × Json) × Nat :=
  match cache.find? (fun kv => kv.1 == dayKey) with
  | some kv => (kv.2, cache, 0)
  | none => (fresh, (dayKey, fresh) :: cache, 1)

/-- A response body whose generated text parses and validates: used by
witnesses. -/
def goodBody : Json :=
  Json.obj [("candidates", Json.arr [Json.obj [("content",
    Json.obj [("parts", Json.arr [Json.obj [("text",
      Json.str "\x7b\"title\": \"T\", \"questions\": [\x7b\"type\": \"short_answer\"\x7d]\x7d")]])])]])]

/-- The quiz dict parsed from `goodBody`'s text. -/
def goodQuiz : Json :=
  Json.obj [("title", Json.str "T"),
    ("questions", Json.arr [Json.obj [("type", Json.str "short_answer")]])]

/-- An outcome stream that fails on the first two attempts and succeeds on
the third: used by witnesses. -/
def failFailOk : Nat → FetchOutcome :=
  fun k => if k < 2 then FetchOutcome.raise else FetchOutcome.resp true goodBody

/-- The all-failures outcome stream: used by counterexamples/witnesses. -/
def allFail : Nat → FetchOutcome := fun _ => FetchOutcome.raise

/-- The zero-jitter stream: used by counterexamples/witnesses. -/
def jitter0 : Nat → Rat := fun _ => 0

example : attemptResult (FetchOutcome.resp true goodBody) = Except.ok goodQuiz := rfl

example : generate_reflection_quiz "t" allFail jitter0 =
    ⟨errorQuizJson "t", [initial_delay * 2 ^ 0 + jitter0 0,
      initial_delay * 2 ^ 1 + jitter0 1], 3⟩ := rfl

example : generate_reflection_quiz "t" failFailOk jitter0 =
    ⟨goodQuiz, [initial_delay * 2 ^ 0 + jitter0 0,
      initial_delay * 2 ^ 1 + jitter0 1], 3⟩ := rfl

example : generate_reflection_quiz "t" (fun _ => FetchOutcome.resp true goodBody) jitter0 =
    ⟨goodQuiz, [], 1⟩ := rfl

example : attemptResult (FetchOutcome.resp true (Json.obj [])) =
    Except.error AttemptErr.noText := rfl

/-- A fixed randomness stream for witnesses. -/
def rands0 : Nat → Nat × Nat × Nat × Nat := fun _ => (0, 0, 0, 0)

/-- A 3-name pool (the spec's artificially reduced configuration). -/
def pool3 : List String := ["김민준", "이서윤", "박도현"]

/-- C3 (confirmed): whenever the stripped raw response contains a match of
the greedy bracketed array pattern `[ ... ]` (matching across newlines) and
that match parses as JSON, the Response Extractor returns the parsed match;
in particular, on `Sure! [\x7b"a":1\x7d] Hope that helps` it returns the array
`[\x7b"a":1\x7d]`. -/
theorem C3_extractor_bracket (raw m : String) (v : Json)
    (hm : reSearchBracket (pyStrip raw) = some m) (hp : jsonParse m = some v) :
    pollExtract raw = Except.ok v ∧
    pollExtract "Sure! [\x7b\"a\":1\x7d] Hope that helps" =
      Except.ok (Json.arr [Json.obj [("a", Json.num 1)]]) := by
  refine ⟨?_, rfl⟩
  simp only [pollExtract, hm, hp]

/-- Witness for C3 at the claim's own concrete input. -/
theorem C3_witness :
    pollExtract "Sure! [\x7b\"a\":1\x7d] Hope that helps" =
      Except.ok (Json.arr [Json.obj [("a", Json.num 1)]]) :=
  (C3_extractor_bracket "Sure! [\x7b\"a\":1\x7d] Hope that helps" "[\x7b\"a\":1\x7d]"
    (Json.arr [Json.obj [("a", Json.num 1)]]) rfl rfl).1

/-- C4 counterexample: on `\x7b"a": [1], "result": [\x7b"a":1\x7d]\x7d` the
bracketed-array search yields nothing parseable (the greedy match
`[1], "result": [\x7b"a":1\x7d]` is not valid JSON), and the whole trimmed text is
a JSON mapping whose `result` value is a non-empty array of mappings — yet
the code's extraction fails with a decode error (so `generate_poll_question`
returns `[]`) instead of returning the inner array as the claim states. -/
theorem C4_counterexample :
    jsonParse "\x7b\"a\": [1], \"result\": [\x7b\"a\":1\x7d]\x7d" =
      some (Json.obj [("a", Json.arr [Json.num 1]),
        ("result", Json.arr [Json.obj [("a", Json.num 1)]])]) ∧
    pollExtract "\x7b\"a\": [1], \"result\": [\x7b\"a\":1\x7d]\x7d" =
      Except.error ExtractErr.jsonDecodeError := ⟨rfl, rfl⟩

/-- C4 (corrected): when the bracketed-array search yields nothing parseable
the extractor simply fails (there is no whole-text JSON parse and no scan of
mapping values); the claim's concrete object-wrapped example does return the
inner array, but via the greedy bracket regex, not via a mapping scan. -/
theorem C4_amended_holds (s : String)
    (h : reSearchBracket (pyStrip s) = none ∨
      ∃ m, reSearchBracket (pyStrip s) = some m ∧ jsonParse m = none) :
    (∃ e, pollExtract s = Except.error e) ∧
    pollExtract "\x7b\"result\": [\x7b\"a\":1\x7d,\x7b\"a\":2\x7d]\x7d" =
      Except.ok (Json.arr [Json.obj [("a", Json.num 1)],
        Json.obj [("a", Json.num 2)]]) := by
  refine ⟨?_, rfl⟩
  rcases h with h | ⟨m, hm, hp⟩
  · exact ⟨ExtractErr.noJsonFound, by simp only [pollExtract, h]⟩
  · exact ⟨ExtractErr.jsonDecodeError, by simp only [pollExtract, hm, hp]⟩

/-- Witness for C4 at the counterexample input. -/
theorem C4_witness :
    (∃ e, pollExtract "\x7b\"a\": [1], \"result\": [\x7b\"a\":1\x7d]\x7d" =
      Except.error e) ∧
    pollExtract "\x7b\"result\": [\x7b\"a\":1\x7d,\x7b\"a\":2\x7d]\x7d" =
      Except.ok (Json.arr [Json.obj [("a", Json.num 1)],
        Json.obj [("a", Json.num 2)]]) :=
  C4_amended_holds "\x7b\"a\": [1], \"result\": [\x7b\"a\":1\x7d]\x7d"
    (Or.inr ⟨"[1], \"result\": [\x7b\"a\":1\x7d]", rfl, rfl⟩)

/-- C5 counterexample: on a whitespace-only raw text the poll extractor does
run the regex search and fails with the generic no-JSON `ValueError`
(`noJsonFound`), not with a typed `EmptyResponse`. -/
theorem C5_counterexample :
    pollExtract " " = Except.error ExtractErr.noJsonFound ∧
    ExtractErr.noJsonFound ≠ ExtractErr.emptyResponse := ⟨rfl, by decide⟩

/-- C5 (corrected): on empty/whitespace-only raw text the poll path attempts
the regex search, which finds no match, and fails with the generic
no-JSON-found error (so `generate_poll_question` returns `[]`); on the quiz
path an empty generated text raises a `ValueError` before any JSON parse,
which counts as a retryable attempt failure rather than an immediate typed
failure.  No `EmptyResponse` error exists in the code. -/
theorem C5_amended_holds (s : String) (body : Json) (t : Json)
    (hs : pyStrip s = "") (hn : navText body = Except.ok t)
    (hf : jsonFalsy t = true) :
    pollExtract s = Except.error ExtractErr.noJsonFound ∧
    attemptResult (FetchOutcome.resp true body) = Except.error AttemptErr.noText := by
  constructor
  · simp only [pollExtract, hs]
    rfl
  · simp only [attemptResult, Bool.not_true, hn, hf]
    rfl

/-- Witness for C5 at the empty string and an empty response body. -/
theorem C5_witness :
    pollExtract "" = Except.error ExtractErr.noJsonFound ∧
    attemptResult (FetchOutcome.resp true (Json.obj [])) =
      Except.error AttemptErr.noText :=
  C5_amended_holds "" (Json.obj []) Json.null rfl rfl rfl

/-- C8 (confirmed, spec-modelled): with the day-key absent from the cache, a
first call computes and stores the batch (one model call) and a second call
with the same day-key returns the identical batch from the cache with no
model call — even if the model would now produce something else (`f2`). -/
theorem C8_daily_memoization (cache : List (String × Json)) (dayKey : String)
    (f1 f2 : Json) (h : cache.find? (fun kv => kv.1 == dayKey) = none) :
    (cached_generate_reflection_quiz cache dayKey f1).1 = f1 ∧
    (cached_generate_reflection_quiz
      (cached_generate_reflection_quiz cache dayKey f1).2.1 dayKey f2).1 = f1 ∧
    (cached_generate_reflection_quiz cache dayKey f1).2.2 = 1 ∧
    (cached_generate_reflection_quiz
      (cached_generate_reflection_quiz cache dayKey f1).2.1 dayKey f2).2.2 = 0 := by
  simp [cached_generate_reflection_quiz, h, List.find?]

/-- Witness for C8 on the empty cache. -/
theorem C8_witness :
    (cached_generate_reflection_quiz [] "2026-10-12" goodQuiz).1 = goodQuiz ∧
    (cached_generate_reflection_quiz
      (cached_generate_reflection_quiz [] "2026-10-12" goodQuiz).2.1
      "2026-10-12" Json.null).1 = goodQuiz ∧
    (cached_generate_reflection_quiz [] "2026-10-12" goodQuiz).2.2 = 1 ∧
    (cached_generate_reflection_quiz
      (cached_generate_reflection_quiz [] "2026-10-12" goodQuiz).2.1
      "2026-10-12" Json.null).2.2 = 0 :=
  C8_daily_memoization [] "2026-10-12" goodQuiz Json.null rfl

/-- C10 (confirmed): when the completion call raises, or when the response
contains no substring parseable as a JSON array, `generate_poll_question`
returns `[]` without raising; and with the client initialized it makes
exactly one completion-API call per invocation — there is no retry loop on
the poll path. -/
theorem C10_poll_no_retry (topic : String) (nq : Nat) (pool : List String)
    (rands : Nat → Nat × Nat × Nat × Nat) (raw : String) (e : ExtractErr)
    (hx : pollExtract raw = Except.error e) :
    generate_poll_question true topic nq (Except.error ()) pool rands =
      ⟨Except.ok [], 1⟩ ∧
    generate_poll_question true topic nq (Except.ok raw) pool rands =
      ⟨Except.ok [], 1⟩ ∧
    ∀ api : Except Unit String,
      (generate_poll_question true topic nq api pool rands).apiCalls = 1 := by
  refine ⟨rfl, ?_, ?_⟩
  · simp [generate_poll_question, hx]
  · intro api
    cases api with
    | error u => rfl
    | ok raw2 =>
      cases hpe : pollExtract raw2 with
      | error e2 => simp [generate_poll_question, hpe]
      | ok v =>
        cases hpi : pyIter v with
        | error e3 => simp [generate_poll_question, hpe, hpi]
        | ok items => simp [generate_poll_question, hpe, hpi]

/-- Witness for C10 on a raising call and a prose-only response. -/
theorem C10_witness :
    generate_poll_question true "학교생활" 3 (Except.error ()) SAMPLE_USERS rands0 =
      ⟨Except.ok [], 1⟩ ∧
    generate_poll_question true "학교생활" 3 (Except.ok "no json here") SAMPLE_USERS rands0 =
      ⟨Except.ok [], 1⟩ :=
  ⟨(C10_poll_no_retry "학교생활" 3 SAMPLE_USERS rands0 "no json here"
      ExtractErr.noJsonFound rfl).1,
   (C10_poll_no_retry "학교생활" 3 SAMPLE_USERS rands0 "no json here"
      ExtractErr.noJsonFound rfl).2.1⟩

/-- C9 counterexample: with a 3-name pool (and the client initialized), a
failing completion call makes `generate_poll_question` return `[]` — no
error of any kind is raised, so the pool-size configuration does not fail
immediately; and when the call succeeds, the generic pool-size exception is
raised only after that completion call, not before. -/
theorem C9_counterexample :
    (generate_poll_question true "여행" 1 (Except.error ()) pool3 rands0).result =
      Except.ok [] ∧
    (generate_poll_question true "여행" 1
      (Except.ok "[\x7b\"poll_phrase\": \"x?\"\x7d]") pool3 rands0).result =
      Except.error PollErr.tooFewUsers := ⟨rfl, rfl⟩

/-- C9 (corrected): a missing API credential makes `generate_poll_question`
raise immediately, before any completion call (a generic `Exception`, not a
typed `ConfigurationError`); a pool of fewer than 4 names raises a generic
`Exception` only after a successful completion call has produced at least
one mapping item — a failed call instead returns `[]` with no pool error;
in all cases at most one completion call and no backoff occurs. -/
theorem C9_amended_holds (topic : String) (nq : Nat) (api : Except Unit String)
    (pool : List String) (rands : Nat → Nat × Nat × Nat × Nat)
    (hpool : pool.length < 4) :
    generate_poll_question false topic nq api pool rands =
      ⟨Except.error PollErr.clientNotInit, 0⟩ ∧
    generate_poll_question true topic nq (Except.error ()) pool rands =
      ⟨Except.ok [], 1⟩ ∧
    (∀ raw v d rest, api = Except.ok raw → pollExtract raw = Except.ok v →
      pyIter v = Except.ok (Json.obj d :: rest) →
      (generate_poll_question true topic nq api pool rands).result =
        Except.error PollErr.tooFewUsers) ∧
    (generate_poll_question true topic nq api pool rands).apiCalls ≤ 1 := by
  refine ⟨rfl, rfl, ?_, ?_⟩
  · intro raw v d rest ha hx hi
    subst ha
    simp [generate_poll_question, hx, hi, buildPolls, if_pos hpool]
  · cases api with
    | error u => exact Nat.le_refl 1
    | ok raw2 =>
      cases hpe : pollExtract raw2 with
      | error e2 => simp [generate_poll_question, hpe]
      | ok v =>
        cases hpi : pyIter v with
        | error e3 => simp [generate_poll_question, hpe, hpi]
        | ok items => simp [generate_poll_question, hpe, hpi]

/-- Witness for C9 with the 3-name pool. -/
theorem C9_witness :
    (generate_poll_question true "여행" 2
      (Except.ok "[\x7b\"poll_phrase\": \"y?\"\x7d]") pool3 rands0).result =
      Except.error PollErr.tooFewUsers :=
  (C9_amended_holds "여행" 2 (Except.ok "[\x7b\"poll_phrase\": \"y?\"\x7d]")
    pool3 rands0 (by decide)).2.2.1 "[\x7b\"poll_phrase\": \"y?\"\x7d]"
    (Json.arr [Json.obj [("poll_phrase", Json.str "y?")]])
    [("poll_phrase", Json.str "y?")] [] rfl rfl rfl

/-- One unfolding step of the retry loop. -/
lemma quizGo_succ (o : Nat → FetchOutcome) (j : Nat → Rat) (topic : String)
    (attempt r : Nat) (acc : List Rat) (calls : Nat) :
    quizGo o j topic attempt (r + 1) acc calls =
      match attemptResult (o attempt) with
      | Except.ok v => ⟨v, acc.reverse, calls + 1⟩
      | Except.error _ =>
        if 0 < r then
          quizGo o j topic (attempt + 1) r
            ((initial_delay * 2 ^ attempt + j attempt) :: acc) (calls + 1)
        else ⟨errorQuizJson topic, acc.reverse, calls + 1⟩ := rfl

/-- A run whose first attempt succeeds: result returned at once, no sleeps,
one API call. -/
lemma quizRun_first_ok (topic : String) (o : Nat → FetchOutcome) (j : Nat → Rat)
    (v : Json) (h : attemptResult (o 0) = Except.ok v) :
    generate_reflection_quiz topic o j = ⟨v, [], 1⟩ := by
  show quizGo o j topic 0 (2 + 1) [] 0 = _
  rw [quizGo_succ, h]
  rfl

/-- A run that fails once then succeeds: one backoff sleep, two API calls. -/
lemma quizRun_second_ok (topic : String) (o : Nat → FetchOutcome) (j : Nat → Rat)
    (e0 : AttemptErr) (v : Json)
    (h0 : attemptResult (o 0) = Except.error e0)
    (h1 : attemptResult (o 1) = Except.ok v) :
    generate_reflection_quiz topic o j =
      ⟨v, [initial_delay * 2 ^ 0 + j 0], 2⟩ := by
  show quizGo o j topic 0 (2 + 1) [] 0 = _
  rw [quizGo_succ, h0]
  show quizGo o j topic 1 (1 + 1) [initial_delay * 2 ^ 0 + j 0] 1 = _
  rw [quizGo_succ, h1]
  rfl

/-- A run that fails twice then succeeds: two backoff sleeps in order, three
API calls. -/
lemma quizRun_third_ok (topic : String) (o : Nat → FetchOutcome) (j : Nat → Rat)
    (e0 e1 : AttemptErr) (v : Json)
    (h0 : attemptResult (o 0) = Except.error e0)
    (h1 : attemptResult (o 1) = Except.error e1)
    (h2 : attemptResult (o 2) = Except.ok v) :
    generate_reflection_quiz topic o j =
      ⟨v, [initial_delay * 2 ^ 0 + j 0, initial_delay * 2 ^ 1 + j 1], 3⟩ := by
  show quizGo o j topic 0 (2 + 1) [] 0 = _
  rw [quizGo_succ, h0]
  show quizGo o j topic 1 (1 + 1) [initial_delay * 2 ^ 0 + j 0] 1 = _
  rw [quizGo_succ, h1]
  show quizGo o j topic 2 (0 + 1)
    [initial_delay * 2 ^ 1 + j 1, initial_delay * 2 ^ 0 + j 0] 2 = _
  rw [quizGo_succ, h2]
  rfl

/-- C1 counterexample: when all 3 attempts fail, `generate_reflection_quiz`
does not raise a typed `GenerationFailed` — it returns normally, and what it
returns is precisely the fallback "Error Quiz" structure (so the call is not
all-or-nothing); it does make exactly 3 attempts (no 4th). -/
theorem C1_counterexample :
    (generate_reflection_quiz "climate" allFail jitter0).result =
      errorQuizJson "climate" ∧
    (generate_reflection_quiz "climate" allFail jitter0).apiCalls = 3 := ⟨rfl, rfl⟩

/-- C1 (corrected): for every sequence of inputs in which all of the at most
3 attempts fail, `generate_reflection_quiz` makes no 4th attempt (exactly 3
API calls) and returns the fallback error-quiz dict — title
`Error Quiz: <topic>` with a single placeholder question — to its caller,
rather than raising a typed `GenerationFailed` error. -/
theorem C1_amended_holds (topic : String) (o : Nat → FetchOutcome)
    (j : Nat → Rat) (e0 e1 e2 : AttemptErr)
    (h0 : attemptResult (o 0) = Except.error e0)
    (h1 : attemptResult (o 1) = Except.error e1)
    (h2 : attemptResult (o 2) = Except.error e2) :
    generate_reflection_quiz topic o j =
      ⟨errorQuizJson topic,
        [initial_delay * 2 ^ 0 + j 0, initial_delay * 2 ^ 1 + j 1], 3⟩ := by
  show quizGo o j topic 0 (2 + 1) [] 0 = _
  rw [quizGo_succ, h0]
  show quizGo o j topic 1 (1 + 1) [initial_delay * 2 ^ 0 + j 0] 1 = _
  rw [quizGo_succ, h1]
  show quizGo o j topic 2 (0 + 1)
    [initial_delay * 2 ^ 1 + j 1, initial_delay * 2 ^ 0 + j 0] 2 = _
  rw [quizGo_succ, h2]
  rfl

/-- Witness for C1 with all attempts raising. -/
theorem C1_witness :
    generate_reflection_quiz "climate" allFail jitter0 =
      ⟨errorQuizJson "climate",
        [initial_delay * 2 ^ 0 + jitter0 0, initial_delay * 2 ^ 1 + jitter0 1], 3⟩ :=
  C1_amended_holds "climate" allFail jitter0 AttemptErr.transport
    AttemptErr.transport AttemptErr.transport rfl rfl rfl

/-- C2 (confirmed): no delay precedes the first attempt (a first-attempt
success returns with no recorded sleep and a single API call); before the
k-th retry the controller sleeps exactly `initial_delay * 2 ^ (k-1) + jitter`
seconds with the jitter in `[0, 1)` (so the first backoff lies in `[1, 2)`
and the second in `[2, 3)`); a successful attempt returns immediately, and a
run failing twice then succeeding returns the third attempt's result after
exactly 2 backoff waits. -/
theorem C2_retry_backoff (topic : String) (o : Nat → FetchOutcome)
    (j : Nat → Rat) (hj : ∀ k, 0 ≤ j k ∧ j k < 1) :
    (∀ v, attemptResult (o 0) = Except.ok v →
      generate_reflection_quiz topic o j = ⟨v, [], 1⟩) ∧
    (∀ e0 v, attemptResult (o 0) = Except.error e0 →
      attemptResult (o 1) = Except.ok v →
      generate_reflection_quiz topic o j =
        ⟨v, [initial_delay * 2 ^ 0 + j 0], 2⟩ ∧
      1 ≤ initial_delay * 2 ^ 0 + j 0 ∧ initial_delay * 2 ^ 0 + j 0 < 2) ∧
    (∀ e0 e1 v, attemptResult (o 0) = Except.error e0 →
      attemptResult (o 1) = Except.error e1 →
      attemptResult (o 2) = Except.ok v →
      generate_reflection_quiz topic o j =
        ⟨v, [initial_delay * 2 ^ 0 + j 0, initial_delay * 2 ^ 1 + j 1], 3⟩ ∧
      2 ≤ initial_delay * 2 ^ 1 + j 1 ∧ initial_delay * 2 ^ 1 + j 1 < 3) := by
  refine ⟨?_, ?_, ?_⟩
  · intro v h
    exact quizRun_first_ok topic o j v h
  · intro e0 v h0 h1
    refine ⟨quizRun_second_ok topic o j e0 v h0 h1, ?_, ?_⟩
    · have h := (hj 0).1
      simp only [initial_delay, pow_zero, one_mul]
      linarith
    · have h := (hj 0).2
      simp only [initial_delay, pow_zero, one_mul]
      linarith
  · intro e0 e1 v h0 h1 h2
    refine ⟨quizRun_third_ok topic o j e0 e1 v h0 h1 h2, ?_, ?_⟩
    · have h := (hj 1).1
      simp only [initial_delay, pow_one, one_mul]
      linarith
    · have h := (hj 1).2
      simp only [initial_delay, pow_one, one_mul]
      linarith

/-- Witness for C2 on a fail-fail-succeed outcome stream with zero jitter. -/
theorem C2_witness :
    generate_reflection_quiz "t" failFailOk jitter0 =
      ⟨goodQuiz,
        [initial_delay * 2 ^ 0 + jitter0 0, initial_delay * 2 ^ 1 + jitter0 1], 3⟩ :=
  ((C2_retry_backoff "t" failFailOk jitter0
      (fun _ => ⟨le_refl 0, zero_lt_one⟩)).2.2 AttemptErr.transport
    AttemptErr.transport goodQuiz rfl rfl rfl).1

/-- Fields of a question that satisfies the actual validator but not the
claimed schema (no `question`/`choiceA`/`choiceB` fields). -/
def c6fields : List (String × Json) :=
  [("id", Json.num 1), ("type", Json.str "short_answer"),
   ("question_text", Json.str "x"), ("options", Json.arr []),
   ("correct_answer", Json.str "")]

/-- A quiz payload with a single short-answer question. -/
def c6data : List (String × Json) :=
  [("title", Json.str "T"), ("questions", Json.arr [Json.obj c6fields])]

/-- C6 counterexample: `validate_quiz_data` passes a payload whose question
array has length 1 (not 5) and whose element has no `question`, `choiceA` or
`choiceB` field at all — the validator checks neither the configured count
of 5 nor those fields. -/
theorem C6_counterexample :
    validate_quiz_data c6data = some true ∧
    dictGet c6data "questions" = Json.arr [Json.obj c6fields] ∧
    [Json.obj c6fields].length = 1 ∧
    dictGet c6fields "choiceA" = Json.null ∧
    dictGet c6fields "choiceB" = Json.null := ⟨rfl, rfl, rfl, rfl, rfl⟩

/-- `checkQuestion` passes exactly the mappings whose `type` is
`short_answer`, or `multiple_choice` with a 3–5 element options list. -/
lemma checkQuestion_eq_true_iff (q : Json) :
    checkQuestion q = some true ↔
      ∃ qd, q = Json.obj qd ∧
        (dictGet qd "type" = Json.str "short_answer" ∨
         (dictGet qd "type" = Json.str "multiple_choice" ∧
          ∃ os, dictGet qd "options" = Json.arr os ∧
            3 ≤ os.length ∧ os.length ≤ 5)) := by
  have hne : ("multiple_choice" : String) ≠ "short_answer" := by decide
  cases q with
  | obj qd =>
    simp only [checkQuestion]
    cases ht : dictGet qd "type" with
    | str s =>
      by_cases h1 : s = "multiple_choice"
      · subst h1
        cases ho : dictGet qd "options" with
        | arr os => simp [ht, ho, hne, decide_eq_true_eq]
        | null => simp [ht, ho, hne]
        | bool b => simp [ht, ho, hne]
        | num n => simp [ht, ho, hne]
        | str s2 => simp [ht, ho, hne]
        | obj kvs => simp [ht, ho, hne]
      · by_cases h2 : s = "short_answer"
        · subst h2; simp [ht]
        · simp [ht, h1, h2]
    | null => simp [ht]
    | bool b => simp [ht]
    | num n => simp [ht]
    | arr xs => simp [ht]
    | obj kvs => simp [ht]
  | null => simp [checkQuestion]
  | bool b => simp [checkQuestion]
  | num n => simp [checkQuestion]
  | str s => simp [checkQuestion]
  | arr xs => simp [checkQuestion]

/-- The question loop passes iff every question passes. -/
lemma checkQuestions_eq_true_iff (qs : List Json) :
    checkQuestions qs = some true ↔ ∀ q ∈ qs, checkQuestion q = some true := by
  induction qs with
  | nil => simp [checkQuestions]
  | cons q rest ih =>
    simp only [checkQuestions, List.mem_cons]
    cases h : checkQuestion q with
    | none =>
      constructor
      · intro hh; exact Option.noConfusion hh
      · intro hall
        have hq := hall q (Or.inl rfl)
        rw [h] at hq
        exact Option.noConfusion hq
    | some b =>
      cases b with
      | false =>
        constructor
        · intro hh; simp at hh
        · intro hall
          have hq := hall q (Or.inl rfl)
          rw [h] at hq
          simp at hq
      | true =>
        rw [ih]
        constructor
        · intro hall q2 hq2
          rcases hq2 with he | hm
          · rw [he]; exact h
          · exact hall q2 hm
        · intro hall q2 hm
          exact hall q2 (Or.inr hm)

/-- C6 (corrected): the actual `validate_quiz_data` passes a payload if and
only if its `title` is a non-empty string, its `questions` value is a
non-empty list, and every question is a mapping whose `type` is
`short_answer`, or `multiple_choice` with an options list of length 3–5.
There is no length-5 requirement and no check of `id`, `question`, `choiceA`
or `choiceB` fields. -/
theorem C6_amended_holds (data : List (String × Json)) :
    validate_quiz_data data = some true ↔
      (∃ t, dictGet data "title" = Json.str t ∧ t ≠ "") ∧
      (∃ qs, dictGet data "questions" = Json.arr qs ∧ qs ≠ [] ∧
        ∀ q ∈ qs, ∃ qd, q = Json.obj qd ∧
          (dictGet qd "type" = Json.str "short_answer" ∨
           (dictGet qd "type" = Json.str "multiple_choice" ∧
            ∃ os, dictGet qd "options" = Json.arr os ∧
              3 ≤ os.length ∧ os.length ≤ 5))) := by
  unfold validate_quiz_data
  cases ht : dictGet data "title" with
  | str t =>
    by_cases h0 : t = ""
    · subst h0
      simp
    · simp only [if_neg h0]
      cases hq : dictGet data "questions" with
      | arr qs =>
        rcases qs with _ | ⟨q, rest⟩
        · simp
        · simp only [List.isEmpty_cons, Bool.false_eq_true, if_false,
            if_neg (by simp : ¬(List.isEmpty (q :: rest) = true))]
          rw [checkQuestions_eq_true_iff]
          simp only [Json.arr.injEq]
          constructor
          · intro hall
            refine ⟨⟨t, rfl, h0⟩, (q :: rest), rfl, by simp, ?_⟩
            intro q2 hq2
            exact (checkQuestion_eq_true_iff q2).mp (hall q2 hq2)
          · rintro ⟨-, qs2, hqs2, -, hall⟩
            intro q2 hq2
            subst hqs2
            exact (checkQuestion_eq_true_iff q2).mpr (hall q2 hq2)
      | null => simp
      | bool b => simp
      | num n => simp
      | str s2 => simp
      | obj kvs => simp
  | null => simp
  | bool b => simp
  | num n => simp
  | arr xs => simp
  | obj kvs => simp

/-- In a duplicate-free list, the element at index `i` does not occur in the
list with index `i` erased. -/
lemma not_mem_eraseIdx_self {α : Type} :
    ∀ (l : List α) (i : Nat) (h : i < l.length),
      l.Nodup → l.get ⟨i, h⟩ ∉ l.eraseIdx i := by
  intro l
  induction l with
  | nil => intro i h; simp at h
  | cons a t ih =>
    intro i h hnd
    cases i with
    | zero =>
      simp only [List.eraseIdx, List.get]
      exact (List.nodup_cons.mp hnd).1
    | succ n =>
      simp only [List.eraseIdx, List.get]
      have hn : n < t.length := by simpa using h
      have h1 : t.get ⟨n, hn⟩ ∈ t := t.get_mem n hn
      intro hmem
      rcases List.mem_cons.mp hmem with he | hm
      · exact (List.nodup_cons.mp hnd).1 (he ▸ h1)
      · exact ih n hn (List.nodup_cons.mp hnd).2 hm

/-- What one `drawOne` step guarantees on a non-empty duplicate-free pool:
the pick is in the pool; the remainder is duplicate-free, one shorter, a
subset of the pool, and does not contain the pick. -/
lemma drawOne_spec (pool : List String) (r : Nat) (hne : pool ≠ [])
    (hnd : pool.Nodup) :
    (drawOne pool r).1 ∈ pool ∧
    (drawOne pool r).2.Nodup ∧
    (drawOne pool r).2.length + 1 = pool.length ∧
    (∀ x ∈ (drawOne pool r).2, x ∈ pool) ∧
    (drawOne pool r).1 ∉ (drawOne pool r).2 := by
  have hlen : 0 < pool.length := List.length_pos.mpr hne
  have hie : pool.isEmpty = false := by
    simp [List.isEmpty_iff, hne]
  have hi : r % pool.length < pool.length := Nat.mod_lt _ hlen
  simp only [drawOne, hie, Bool.false_eq_true, if_false]
  refine ⟨?_, ?_, ?_, ?_, ?_⟩
  · rw [List.getD_eq_getElem _ _ hi]
    exact List.getElem_mem hi
  · exact (List.eraseIdx_sublist pool (r % pool.length)).nodup hnd
  · rw [List.length_eraseIdx]
    simp only [hi, if_pos]
    omega
  · intro x hx
    exact (List.eraseIdx_sublist pool (r % pool.length)).subset hx
  · rw [List.getD_eq_getElem _ _ hi]
    have hnm := not_mem_eraseIdx_self pool (r % pool.length) hi hnd
    simpa [List.get_eq_getElem] using hnm

/-- `random.sample(pool, 4)` on a duplicate-free pool of at least 4 names
returns 4 pairwise-distinct names from the pool, whatever the random draws. -/
lemma random_sample_spec (pool : List String) (rs : Nat × Nat × Nat × Nat)
    (hlen : 4 ≤ pool.length) (hnd : pool.Nodup) :
    (random_sample pool rs).length = 4 ∧ (random_sample pool rs).Nodup ∧
    ∀ c ∈ random_sample pool rs, c ∈ pool := by
  obtain ⟨r1, r2, r3, r4⟩ := rs
  have hne : pool ≠ [] := by
    intro h
    rw [h] at hlen
    simp at hlen
  obtain ⟨m1, nd1, len1, sub1, nm1⟩ := drawOne_spec pool r1 hne hnd
  have hne1 : (drawOne pool r1).2 ≠ [] := by
    have : 0 < (drawOne pool r1).2.length := by omega
    exact List.ne_nil_of_length_pos this
  obtain ⟨m2, nd2, len2, sub2, nm2⟩ := drawOne_spec (drawOne pool r1).2 r2 hne1 nd1
  have hne2 : (drawOne (drawOne pool r1).2 r2).2 ≠ [] := by
    have : 0 < (drawOne (drawOne pool r1).2 r2).2.length := by omega
    exact List.ne_nil_of_length_pos this
  obtain ⟨m3, nd3, len3, sub3, nm3⟩ :=
    drawOne_spec (drawOne (drawOne pool r1).2 r2).2 r3 hne2 nd2
  have hne3 : (drawOne (drawOne (drawOne pool r1).2 r2).2 r3).2 ≠ [] := by
    have : 0 < (drawOne (drawOne (drawOne pool r1).2 r2).2 r3).2.length := by omega
    exact List.ne_nil_of_length_pos this
  obtain ⟨m4, -, -, -, -⟩ :=
    drawOne_spec (drawOne (drawOne (drawOne pool r1).2 r2).2 r3).2 r4 hne3 nd3
  have hrw : random_sample pool (r1, r2, r3, r4) =
      [(drawOne pool r1).1, (drawOne (drawOne pool r1).2 r2).1,
       (drawOne (drawOne (drawOne pool r1).2 r2).2 r3).1,
       (drawOne (drawOne (drawOne (drawOne pool r1).2 r2).2 r3).2 r4).1] := rfl
  rw [hrw]
  have hc2p1 : (drawOne (drawOne pool r1).2 r2).1 ∈ (drawOne pool r1).2 := m2
  have hc3p2 : (drawOne (drawOne (drawOne pool r1).2 r2).2 r3).1 ∈
      (drawOne (drawOne pool r1).2 r2).2 := m3
  have hc4p3 : (drawOne (drawOne (drawOne (drawOne pool r1).2 r2).2 r3).2 r4).1 ∈
      (drawOne (drawOne (drawOne pool r1).2 r2).2 r3).2 := m4
  have hc3p1 : (drawOne (drawOne (drawOne pool r1).2 r2).2 r3).1 ∈
      (drawOne pool r1).2 := sub2 _ hc3p2
  have hc4p2 : (drawOne (drawOne (drawOne (drawOne pool r1).2 r2).2 r3).2 r4).1 ∈
      (drawOne (drawOne pool r1).2 r2).2 := sub3 _ hc4p3
  have hc4p1 : (drawOne (drawOne (drawOne (drawOne pool r1).2 r2).2 r3).2 r4).1 ∈
      (drawOne pool r1).2 := sub2 _ hc4p2
  refine ⟨rfl, ?_, ?_⟩
  · refine List.nodup_cons.mpr ⟨?_, List.nodup_cons.mpr ⟨?_,
      List.nodup_cons.mpr ⟨?_, List.nodup_singleton _⟩⟩⟩
    · intro hmem
      rcases List.mem_cons.mp hmem with he | hmem2
      · exact nm1 (he ▸ hc2p1)
      rcases List.mem_cons.mp hmem2 with he | hmem3
      · exact nm1 (he ▸ hc3p1)
      rcases List.mem_cons.mp hmem3 with he | hmem4
      · exact nm1 (he ▸ hc4p1)
      · simp at hmem4
    · intro hmem
      rcases List.mem_cons.mp hmem with he | hmem2
      · exact nm2 (he ▸ hc3p2)
      rcases List.mem_cons.mp hmem2 with he | hmem3
      · exact nm2 (he ▸ hc4p2)
      · simp at hmem3
    · intro hmem
      rcases List.mem_cons.mp hmem with he | hmem2
      · exact nm3 (he ▸ hc4p3)
      · simp at hmem2
  · intro c hc
    rcases List.mem_cons.mp hc with he | hc2
    · exact he ▸ m1
    rcases List.mem_cons.mp hc2 with he | hc3
    · exact he ▸ sub1 _ hc2p1
    rcases List.mem_cons.mp hc3 with he | hc4
    · exact he ▸ sub1 _ hc3p1
    rcases List.mem_cons.mp hc4 with he | hc5
    · exact he ▸ sub1 _ hc4p1
    · simp at hc5

/-- The poll-building loop on a list of mapping items with an adequate pool:
it succeeds, returns one poll per item, and every poll's choices are 4
pairwise-distinct names from the pool. -/
lemma buildPolls_spec (topic : String) (pool : List String)
    (rands : Nat → Nat × Nat × Nat × Nat) (hlen : 4 ≤ pool.length)
    (hnd : pool.Nodup) :
    ∀ (items : List Json) (k : Nat), (∀ item ∈ items, item.isObj = true) →
      ∃ ps, buildPolls topic pool rands items k = Except.ok ps ∧
        ps.length = items.length ∧
        ∀ p ∈ ps, p.choices.length = 4 ∧ p.choices.Nodup ∧
          ∀ c ∈ p.choices, c ∈ pool := by
  intro items
  induction items with
  | nil =>
    intro k h
    exact ⟨[], rfl, rfl, by simp⟩
  | cons item rest ih =>
    intro k h
    have hobj : item.isObj = true := h item (List.mem_cons_self item rest)
    cases item with
    | obj d =>
      obtain ⟨ps, hps, hlen2, hprop⟩ :=
        ih (k + 1) (fun it hit => h it (List.mem_cons_of_mem _ hit))
      refine ⟨⟨dictGetD d "poll_phrase"
          (Json.str ("주제 [" ++ topic ++ "]에 대해 투표할 사람?")),
          random_sample pool (rands k), "투표 결과에 따라 다름"⟩ :: ps, ?_, ?_, ?_⟩
      · simp only [buildPolls, if_neg (by omega : ¬pool.length < 4), hps]
      · simp [hlen2]
      · intro p hp
        rcases List.mem_cons.mp hp with he | hm
        · subst he
          obtain ⟨l4, nd4, mem4⟩ := random_sample_spec pool (rands k) hlen hnd
          exact ⟨l4, nd4, mem4⟩
        · exact hprop p hm
    | null => simp [Json.isObj] at hobj
    | bool b => simp [Json.isObj] at hobj
    | num n => simp [Json.isObj] at hobj
    | str s => simp [Json.isObj] at hobj
    | arr xs => simp [Json.isObj] at hobj

/-- C7 (confirmed): on a valid model response — one whose extraction yields
an array of N mapping items, 1 ≤ N ≤ 5 — `generate_poll_question` with the
configured pool `SAMPLE_USERS` returns exactly N poll items, and every item
has exactly 4 pairwise-distinct choices, each drawn from `SAMPLE_USERS`. -/
theorem C7_poll_invariants (topic : String) (nq N : Nat) (raw : String)
    (items : List Json) (rands : Nat → Nat × Nat × Nat × Nat)
    (hN1 : 1 ≤ N) (hN5 : N ≤ 5)
    (hext : pollExtract raw = Except.ok (Json.arr items))
    (hobj : ∀ item ∈ items, item.isObj = true)
    (hlen : items.length = N) :
    ∃ polls, (generate_poll_question true topic nq (Except.ok raw)
        SAMPLE_USERS rands).result = Except.ok polls ∧
      polls.length = N ∧
      ∀ p ∈ polls, p.choices.length = 4 ∧ p.choices.Nodup ∧
        ∀ c ∈ p.choices, c ∈ SAMPLE_USERS := by
  have h15 : SAMPLE_USERS.length = 15 := rfl
  have hnd : SAMPLE_USERS.Nodup := by decide
  obtain ⟨ps, hps, hl, hp⟩ :=
    buildPolls_spec topic SAMPLE_USERS rands (by rw [h15]; omega) hnd items 0 hobj
  refine ⟨ps, ?_, by rw [hl, hlen], hp⟩
  simp [generate_poll_question, hext, pyIter, hps]

/-- Witness for C7 on a one-question response. -/
theorem C7_witness :
    ∃ polls, (generate_poll_question true "점심" 1
        (Except.ok "[\x7b\"poll_phrase\": \"x?\"\x7d]") SAMPLE_USERS rands0).result =
      Except.ok polls ∧
      polls.length = 1 ∧
      ∀ p ∈ polls, p.choices.length = 4 ∧ p.choices.Nodup ∧
        ∀ c ∈ p.choices, c ∈ SAMPLE_USERS :=
  C7_poll_invariants "점심" 1 1 "[\x7b\"poll_phrase\": \"x?\"\x7d]"
    [Json.obj [("poll_phrase", Json.str "x?")]] rands0 (by decide) (by decide)
    rfl (by decide) rfl
